import Mathlib

/-!
# Tollbooth mock registration authority

A shallow embedding of `pkg/authorize/tollbooth/mock.go`: the handler
`mock.ServeHTTP` is a pure function from the authority state and a request to
the new state and the response written.

* The mutex `mu` and the `logger` carry no data the handler's answer depends
  on; the embedding is the sequential semantics of the handler (the whole
  body after decoding runs with the mutex held). Log lines and the closing of
  the request body are not part of the response and are left out.
* `fnv.Hash` (package `pkg/fnv`) and the JSON decoder of the standard library
  are not part of `mock.go`; they are parameters of the embedding (`Env`).
* A Go `map[K]V` is embedded as an association list with `lookup`
  (`v, ok := m[k]`) and `store` (`m[k] = v`); a `map[string]struct{}` used as
  a set is a list with membership.
-/

namespace Tollbooth

/-! ## Data model -/

/-- Composite map key `Key` (mock.go:15-18). -/
structure Key where
  Token : String
  Cluster : String
deriving DecidableEq, Repr

/-- Modelled from the spec: the record `clusterRegistration` is declared
outside `mock.go`; its three string fields are the ones `ServeHTTP` assigns at
mock.go:76-80 (spec section 3, ClusterRegistration). -/
structure clusterRegistration where
  AccountID : String
  AuthorizationToken : String
  ClusterID : String
deriving DecidableEq, Repr

/-- Modelled from the spec: the record `registrationError` is declared outside
`mock.go`; its two string fields are the ones `ServeHTTP` assigns (spec
section 6, error response body). -/
structure registrationError where
  Name : String
  Reason : String
deriving DecidableEq, Repr

/-- Go map `map[Key]clusterRegistration` as an association list. -/
abbrev Registrations := List (Key × clusterRegistration)

/-- Go map read `v, ok := m[k]`: `some v` when `ok`, `none` otherwise. -/
def lookup : Registrations → Key → Option clusterRegistration
  | [], _ => none
  | (k', v) :: m, k => if k' = k then some v else lookup m k

/-- Go map write `m[k] = v`: replaces the entry under `k` or adds one. -/
def store : Registrations → Key → clusterRegistration → Registrations
  | [], k, v => [(k, v)]
  | (k', v') :: m, k, v => if k' = k then (k, v) :: m else (k', v') :: store m k v

/-- The authority state `mock` (mock.go:20-25), without mutex and logger. -/
structure mock where
  Tokens : List String
  Responses : Registrations
deriving DecidableEq, Repr

/-- Constructor `NewMock` (mock.go:27-33): given token set, empty map. -/
def NewMock (tokenSet : List String) : mock :=
  { Tokens := tokenSet, Responses := [] }

/-- The parts of `*http.Request` the handler reads: the method, the value of
`Header.Get("Content-Type")` and the body. -/
structure Request where
  Method : String
  ContentType : String
  Body : String
deriving DecidableEq, Repr

/-- The value handed to `Write` as `resp`: an error document or a
registration. -/
inductive Payload where
  | error (e : registrationError)
  | registration (r : clusterRegistration)
deriving DecidableEq, Repr

/-- What `Write` puts on the `http.ResponseWriter`: the Content-Type header,
the status code and the marshalled value. -/
structure Response where
  ContentType : String
  StatusCode : Nat
  Body : Payload
deriving DecidableEq, Repr

/-- Functions the handler calls that live outside `mock.go`: `fnv.Hash` and
the JSON decoding of a body into a `clusterRegistration`; each returns a value
or an error message. -/
structure Env where
  Hash : String → Except String String
  Decode : String → Except String clusterRegistration

/-! ## Status codes of `net/http` -/

def StatusOK : Nat := 200
def StatusCreated : Nat := 201
def StatusBadRequest : Nat := 400
def StatusUnauthorized : Nat := 401
def StatusMethodNotAllowed : Nat := 405
def StatusInternalServerError : Nat := 500

/-! ## Operations -/

/-- Function `Write` (mock.go:88-100): JSON content type, the status code, the
value marshalled as the body. -/
def Write (statusCode : Nat) (resp : Payload) : Response :=
  { ContentType := "application/json", StatusCode := statusCode, Body := resp }

/-- Handler `mock.ServeHTTP` (mock.go:35-86). -/
def ServeHTTP (env : Env) (s : mock) (req : Request) : mock × Response :=
  if req.Method ≠ "POST" then
    (s, Write StatusMethodNotAllowed (.error
      { Name := "MethodNotAllowed", Reason := "Only requests of type 'POST' are accepted." }))
  else if req.ContentType ≠ "application/json" then
    (s, Write StatusBadRequest (.error
      { Name := "InvalidContentType",
        Reason := "Only requests with Content-Type application/json are accepted." }))
  else
    match env.Decode req.Body with
    | .error err =>
      (s, Write StatusBadRequest (.error
        { Name := "InvalidBody", Reason := "Unable to parse body as JSON: " ++ err }))
    | .ok regRequest =>
      if regRequest.ClusterID = "" then
        (s, Write StatusBadRequest (.error
          { Name := "BadRequest", Reason := "No cluster ID provided." }))
      else if regRequest.AuthorizationToken ∉ s.Tokens then
        (s, Write StatusUnauthorized (.error
          { Name := "NotAuthorized", Reason := "The provided token is not recognized." }))
      else
        let key : Key :=
          { Token := regRequest.AuthorizationToken, Cluster := regRequest.ClusterID }
        let found := lookup s.Responses key
        match env.Hash regRequest.ClusterID with
        | .error _ =>
          (s, Write StatusInternalServerError (.error
            { Name := "", Reason := "hashing cluster ID failed" }))
        | .ok accountID =>
          match found with
          | some resp => (s, Write StatusOK (.registration resp))
          | none =>
            let resp : clusterRegistration :=
              { AccountID := accountID,
                AuthorizationToken := regRequest.AuthorizationToken,
                ClusterID := regRequest.ClusterID }
            ({ s with Responses := store s.Responses key resp },
              Write StatusCreated (.registration resp))

/-- Handling a finite sequence of requests one after another: the final state
and the responses in order. -/
def serveAll (env : Env) : mock → List Request → mock × List Response
  | s, [] => (s, [])
  | s, req :: reqs =>
    let r := ServeHTTP env s req
    let rest := serveAll env r.1 reqs
    (rest.1, r.2 :: rest.2)

/-! ## Concrete instances used to exercise the theorems -/

/-- A sample environment: hashing fails on the cluster ID "bad" and otherwise
prefixes it; a body decodes unless it is empty, as token "abc" (or "xyz" for
the body "other") with the body as cluster ID, the body "empty" standing for a
document without cluster ID. -/
def sampleEnv : Env where
  Hash := fun c => if c = "bad" then .error "invalid" else .ok ("acct-" ++ c)
  Decode := fun b =>
    if b = "" then .error "EOF"
    else if b = "empty" then .ok { AccountID := "", AuthorizationToken := "abc", ClusterID := "" }
    else if b = "other" then
      .ok { AccountID := "", AuthorizationToken := "xyz", ClusterID := "cluster-1" }
    else .ok { AccountID := "", AuthorizationToken := "abc", ClusterID := b }

/-- A POST request with JSON content type and the given body. -/
def post (body : String) : Request :=
  { Method := "POST", ContentType := "application/json", Body := body }

/-- A state in which the key ("abc", "cluster-1") is registered with a
registration that differs from what the request would produce. -/
def registeredState : mock :=
  { Tokens := ["abc"],
    Responses := [(⟨"abc", "cluster-1"⟩, ⟨"stored-account", "abc", "cluster-1"⟩)] }

/-- A state in which the key ("abc", "bad") is registered although hashing
"bad" fails in the sample environment. -/
def badRegisteredState : mock :=
  { Tokens := ["abc"],
    Responses := [(⟨"abc", "bad"⟩, ⟨"stored-account", "abc", "bad"⟩)] }

/-- The sample environment with one more body: "forged" decodes to token
"abc", cluster ID "cluster-1" and a caller-supplied account ID. -/
def forgingEnv : Env where
  Hash := sampleEnv.Hash
  Decode := fun b =>
    if b = "forged" then
      .ok { AccountID := "chosen-by-caller", AuthorizationToken := "abc",
            ClusterID := "cluster-1" }
    else sampleEnv.Decode b

/-- The keys of the map, in the order of the association list. -/
def keys (m : Registrations) : List Key := m.map Prod.fst

/-- Number of responses with status 201 (Created). -/
def createdCount (resps : List Response) : Nat :=
  resps.countP (fun p => decide (p.StatusCode = StatusCreated))

/-! ## State invariant -/

/-- Every stored entry agrees with its key and with the hash: under the key
`(t, c)` the entry has token `t`, cluster ID `c` and account ID `Hash c`, with
`c` non-empty and `t` an accepted token. -/
def Consistent (env : Env) (s : mock) : Prop :=
  ∀ (k : Key) (v : clusterRegistration), lookup s.Responses k = some v →
    v.AuthorizationToken = k.Token ∧ v.ClusterID = k.Cluster ∧
    env.Hash k.Cluster = .ok v.AccountID ∧ k.Cluster ≠ "" ∧ k.Token ∈ s.Tokens

/-! ## Map lemmas -/

theorem lookup_store_self (m : Registrations) (k : Key) (v : clusterRegistration) :
    lookup (store m k v) k = some v := by
  induction m with
  | nil => simp [store, lookup]
  | cons e m ih =>
    obtain ⟨k', v'⟩ := e
    by_cases h : k' = k
    · simp [store, lookup, h]
    · simp [store, lookup, h, ih]

theorem lookup_store_of_ne (m : Registrations) (k k' : Key) (v : clusterRegistration)
    (hne : k' ≠ k) : lookup (store m k v) k' = lookup m k' := by
  induction m with
  | nil =>
    have h : ¬ k = k' := fun e => hne e.symm
    simp [store, lookup, h]
  | cons e m ih =>
    obtain ⟨k₀, v₀⟩ := e
    by_cases h : k₀ = k
    · subst h
      have h' : ¬ k₀ = k' := fun e => hne e.symm
      simp [store, lookup, h']
    · by_cases h2 : k₀ = k'
      · subst h2
        simp [store, lookup, h]
      · simp [store, lookup, h, h2, ih]

/-! ## The handler past decoding -/

/-- A request that is POST, JSON and decodes to `r` is answered by the part of
the handler that runs under the mutex (mock.go:51-85). -/
theorem ServeHTTP_decoded (env : Env) (s : mock) (req : Request) (r : clusterRegistration)
    (hm : req.Method = "POST") (hc : req.ContentType = "application/json")
    (hd : env.Decode req.Body = .ok r) :
    ServeHTTP env s req =
      if r.ClusterID = "" then
        (s, Write StatusBadRequest (.error
          { Name := "BadRequest", Reason := "No cluster ID provided." }))
      else if r.AuthorizationToken ∉ s.Tokens then
        (s, Write StatusUnauthorized (.error
          { Name := "NotAuthorized", Reason := "The provided token is not recognized." }))
      else
        match env.Hash r.ClusterID with
        | .error _ =>
          (s, Write StatusInternalServerError (.error
            { Name := "", Reason := "hashing cluster ID failed" }))
        | .ok accountID =>
          match lookup s.Responses ⟨r.AuthorizationToken, r.ClusterID⟩ with
          | some resp => (s, Write StatusOK (.registration resp))
          | none =>
            ({ s with Responses := (store s.Responses ⟨r.AuthorizationToken, r.ClusterID⟩
                  ⟨accountID, r.AuthorizationToken, r.ClusterID⟩) },
              Write StatusCreated (.registration ⟨accountID, r.AuthorizationToken, r.ClusterID⟩)) := by
  simp only [ServeHTTP, hm, hc, hd, ne_eq, not_true_eq_false, if_false]

/-- First registration of a key: 201, the fresh registration, one entry stored. -/
theorem ServeHTTP_created (env : Env) (s : mock) (req : Request) (r : clusterRegistration)
    (a : String)
    (hm : req.Method = "POST") (hc : req.ContentType = "application/json")
    (hd : env.Decode req.Body = .ok r)
    (hid : r.ClusterID ≠ "") (ht : r.AuthorizationToken ∈ s.Tokens)
    (hh : env.Hash r.ClusterID = .ok a)
    (habs : lookup s.Responses ⟨r.AuthorizationToken, r.ClusterID⟩ = none) :
    ServeHTTP env s req =
      ({ s with Responses := (store s.Responses ⟨r.AuthorizationToken, r.ClusterID⟩
            ⟨a, r.AuthorizationToken, r.ClusterID⟩) },
        Write 201 (.registration ⟨a, r.AuthorizationToken, r.ClusterID⟩)) := by
  rw [ServeHTTP_decoded env s req r hm hc hd]
  simp [hid, ht, hh, habs, StatusCreated]

/-- Replay of a registered key: 200, the stored registration, same state. -/
theorem ServeHTTP_replay (env : Env) (s : mock) (req : Request) (r stored : clusterRegistration)
    (a : String)
    (hm : req.Method = "POST") (hc : req.ContentType = "application/json")
    (hd : env.Decode req.Body = .ok r)
    (hid : r.ClusterID ≠ "") (ht : r.AuthorizationToken ∈ s.Tokens)
    (hh : env.Hash r.ClusterID = .ok a)
    (hpres : lookup s.Responses ⟨r.AuthorizationToken, r.ClusterID⟩ = some stored) :
    ServeHTTP env s req = (s, Write 200 (.registration stored)) := by
  rw [ServeHTTP_decoded env s req r hm hc hd]
  simp [hid, ht, hh, hpres, StatusOK]

/-! ## Registration: first call and replay -/

/-- C1 (idempotency): a POST/JSON request that decodes to an accepted token and
a non-empty cluster ID whose hash succeeds, on a state where its key is not
registered, is answered 201 the first time and 200 the second time, and both
responses carry the same registration, whose account ID is the hash. -/
theorem register_twice_created_then_ok (env : Env) (s : mock) (req : Request)
    (r : clusterRegistration) (a : String)
    (hm : req.Method = "POST") (hc : req.ContentType = "application/json")
    (hd : env.Decode req.Body = .ok r)
    (hid : r.ClusterID ≠ "") (ht : r.AuthorizationToken ∈ s.Tokens)
    (hh : env.Hash r.ClusterID = .ok a)
    (habs : lookup s.Responses ⟨r.AuthorizationToken, r.ClusterID⟩ = none) :
    (ServeHTTP env s req).2.StatusCode = 201 ∧
    (ServeHTTP env (ServeHTTP env s req).1 req).2.StatusCode = 200 ∧
    ∃ reg : clusterRegistration,
      (ServeHTTP env s req).2.Body = .registration reg ∧
      (ServeHTTP env (ServeHTTP env s req).1 req).2.Body = .registration reg ∧
      reg.AccountID = a := by
  have h1 := ServeHTTP_created env s req r a hm hc hd hid ht hh habs
  have h2 := ServeHTTP_replay env (ServeHTTP env s req).1 req r
    ⟨a, r.AuthorizationToken, r.ClusterID⟩ a hm hc hd hid
    (by rw [h1]; exact ht) hh (by rw [h1]; exact lookup_store_self _ _ _)
  rw [h2, h1]
  exact ⟨rfl, rfl, ⟨a, r.AuthorizationToken, r.ClusterID⟩, rfl, rfl, rfl⟩

theorem register_twice_created_then_ok_witness :
    (ServeHTTP sampleEnv (NewMock ["abc"]) (post "cluster-1")).2.StatusCode = 201 ∧
    (ServeHTTP sampleEnv (ServeHTTP sampleEnv (NewMock ["abc"]) (post "cluster-1")).1
      (post "cluster-1")).2.StatusCode = 200 ∧
    ∃ reg : clusterRegistration,
      (ServeHTTP sampleEnv (NewMock ["abc"]) (post "cluster-1")).2.Body = .registration reg ∧
      (ServeHTTP sampleEnv (ServeHTTP sampleEnv (NewMock ["abc"]) (post "cluster-1")).1
        (post "cluster-1")).2.Body = .registration reg ∧
      reg.AccountID = "acct-cluster-1" :=
  register_twice_created_then_ok sampleEnv (NewMock ["abc"]) (post "cluster-1")
    ⟨"", "abc", "cluster-1"⟩ "acct-cluster-1" rfl rfl rfl (by decide) (by decide) rfl rfl

/-- C2 (first-time path): with a non-empty cluster ID, an accepted token, a
successful hash and the key absent, the handler answers 201 with the
registration made of the hash, the request token and the request cluster ID;
afterwards the map holds that registration under the key, every other key
reads as before and the token set is the same. -/
theorem first_registration_created_and_stored (env : Env) (s : mock) (req : Request)
    (r : clusterRegistration) (a : String)
    (hm : req.Method = "POST") (hc : req.ContentType = "application/json")
    (hd : env.Decode req.Body = .ok r)
    (hid : r.ClusterID ≠ "") (ht : r.AuthorizationToken ∈ s.Tokens)
    (hh : env.Hash r.ClusterID = .ok a)
    (habs : lookup s.Responses ⟨r.AuthorizationToken, r.ClusterID⟩ = none) :
    (ServeHTTP env s req).2 =
        Write 201 (.registration
          { AccountID := a, AuthorizationToken := r.AuthorizationToken,
            ClusterID := r.ClusterID }) ∧
    lookup (ServeHTTP env s req).1.Responses ⟨r.AuthorizationToken, r.ClusterID⟩ =
        some { AccountID := a, AuthorizationToken := r.AuthorizationToken,
               ClusterID := r.ClusterID } ∧
    (∀ k : Key, k ≠ ⟨r.AuthorizationToken, r.ClusterID⟩ →
        lookup (ServeHTTP env s req).1.Responses k = lookup s.Responses k) ∧
    (ServeHTTP env s req).1.Tokens = s.Tokens := by
  rw [ServeHTTP_created env s req r a hm hc hd hid ht hh habs]
  exact ⟨rfl, lookup_store_self _ _ _, fun k hk => lookup_store_of_ne _ _ _ _ hk, rfl⟩

theorem first_registration_created_and_stored_witness :
    (ServeHTTP sampleEnv (NewMock ["abc"]) (post "cluster-1")).2 =
        Write 201 (.registration
          { AccountID := "acct-cluster-1", AuthorizationToken := "abc",
            ClusterID := "cluster-1" }) ∧
    lookup (ServeHTTP sampleEnv (NewMock ["abc"]) (post "cluster-1")).1.Responses
        ⟨"abc", "cluster-1"⟩ =
        some { AccountID := "acct-cluster-1", AuthorizationToken := "abc",
               ClusterID := "cluster-1" } ∧
    (∀ k : Key, k ≠ ⟨"abc", "cluster-1"⟩ →
        lookup (ServeHTTP sampleEnv (NewMock ["abc"]) (post "cluster-1")).1.Responses k =
          lookup (NewMock ["abc"]).Responses k) ∧
    (ServeHTTP sampleEnv (NewMock ["abc"]) (post "cluster-1")).1.Tokens =
        (NewMock ["abc"]).Tokens :=
  first_registration_created_and_stored sampleEnv (NewMock ["abc"]) (post "cluster-1")
    ⟨"", "abc", "cluster-1"⟩ "acct-cluster-1" rfl rfl rfl (by decide) (by decide) rfl rfl

/-- C3 (replay path): with a non-empty cluster ID, an accepted token, a
successful hash and the key present, the handler answers 200 with the stored
registration as it is and the state (token set and map) is the same. -/
theorem replay_returns_stored_unchanged (env : Env) (s : mock) (req : Request)
    (r stored : clusterRegistration) (a : String)
    (hm : req.Method = "POST") (hc : req.ContentType = "application/json")
    (hd : env.Decode req.Body = .ok r)
    (hid : r.ClusterID ≠ "") (ht : r.AuthorizationToken ∈ s.Tokens)
    (hh : env.Hash r.ClusterID = .ok a)
    (hpres : lookup s.Responses ⟨r.AuthorizationToken, r.ClusterID⟩ = some stored) :
    ServeHTTP env s req = (s, Write 200 (.registration stored)) :=
  ServeHTTP_replay env s req r stored a hm hc hd hid ht hh hpres

theorem replay_returns_stored_unchanged_witness :
    lookup registeredState.Responses ⟨"abc", "cluster-1"⟩ =
        some ⟨"stored-account", "abc", "cluster-1"⟩ ∧
    ServeHTTP sampleEnv registeredState (post "cluster-1") =
      (registeredState, Write 200 (.registration ⟨"stored-account", "abc", "cluster-1"⟩)) :=
  ⟨rfl, replay_returns_stored_unchanged sampleEnv registeredState (post "cluster-1")
    ⟨"", "abc", "cluster-1"⟩ ⟨"stored-account", "abc", "cluster-1"⟩ "acct-cluster-1"
    rfl rfl rfl (by decide) (by decide) rfl rfl⟩

/-! ## Rejections under the mutex -/

/-- C4: a decoded request with an empty cluster ID is answered 400 with the
error BadRequest / "No cluster ID provided." and the state is the same,
whatever the token is (no hypothesis on the token: the check comes first). -/
theorem empty_cluster_id_bad_request (env : Env) (s : mock) (req : Request)
    (r : clusterRegistration)
    (hm : req.Method = "POST") (hc : req.ContentType = "application/json")
    (hd : env.Decode req.Body = .ok r) (hid : r.ClusterID = "") :
    ServeHTTP env s req =
      (s, Write 400 (.error { Name := "BadRequest", Reason := "No cluster ID provided." })) := by
  rw [ServeHTTP_decoded env s req r hm hc hd]
  simp [hid, StatusBadRequest]

theorem empty_cluster_id_bad_request_witness :
    "abc" ∉ (NewMock ["xyz"]).Tokens ∧
    ServeHTTP sampleEnv (NewMock ["xyz"]) (post "empty") =
      (NewMock ["xyz"],
        Write 400 (.error { Name := "BadRequest", Reason := "No cluster ID provided." })) :=
  ⟨by decide, empty_cluster_id_bad_request sampleEnv (NewMock ["xyz"]) (post "empty")
    ⟨"", "abc", ""⟩ rfl rfl rfl rfl⟩

/-- C5, as stated, fails: the POST/JSON request decoding to token "abc" and an
empty cluster ID, on an authority accepting only "xyz", has a token outside the
accepted set and is answered 400 BadRequest, not 401. -/
theorem unknown_token_not_always_unauthorized :
    sampleEnv.Decode (post "empty").Body = .ok ⟨"", "abc", ""⟩ ∧
    "abc" ∉ (NewMock ["xyz"]).Tokens ∧
    (ServeHTTP sampleEnv (NewMock ["xyz"]) (post "empty")).2 =
      Write 400 (.error { Name := "BadRequest", Reason := "No cluster ID provided." }) ∧
    (ServeHTTP sampleEnv (NewMock ["xyz"]) (post "empty")).2.StatusCode ≠ 401 :=
  ⟨rfl, by decide, by decide, by decide⟩

/-- C5 (amended): for a decoded request whose token is not in the accepted
set, the handler answers 401 with error name NotAuthorized exactly when the
cluster ID is non-empty; with an empty cluster ID the answer is 400
BadRequest. -/
theorem unknown_token_unauthorized_iff_cluster_id (env : Env) (s : mock) (req : Request)
    (r : clusterRegistration)
    (hm : req.Method = "POST") (hc : req.ContentType = "application/json")
    (hd : env.Decode req.Body = .ok r) (ht : r.AuthorizationToken ∉ s.Tokens) :
    (((ServeHTTP env s req).2.StatusCode = 401 ∧
        ∃ reason, (ServeHTTP env s req).2.Body = .error ⟨"NotAuthorized", reason⟩) ↔
      r.ClusterID ≠ "") ∧
    (r.ClusterID = "" →
      (ServeHTTP env s req).2.StatusCode = 400 ∧
        ∃ reason, (ServeHTTP env s req).2.Body = .error ⟨"BadRequest", reason⟩) := by
  rw [ServeHTTP_decoded env s req r hm hc hd]
  by_cases hid : r.ClusterID = ""
  · simp [hid, Write, StatusBadRequest]
  · simp [hid, ht, Write, StatusUnauthorized]

theorem unknown_token_unauthorized_iff_cluster_id_witness :
    (((ServeHTTP sampleEnv (NewMock ["abc"]) (post "other")).2.StatusCode = 401 ∧
        ∃ reason, (ServeHTTP sampleEnv (NewMock ["abc"]) (post "other")).2.Body =
          .error ⟨"NotAuthorized", reason⟩) ↔
      (clusterRegistration.mk "" "xyz" "cluster-1").ClusterID ≠ "") ∧
    ((clusterRegistration.mk "" "xyz" "cluster-1").ClusterID = "" →
      (ServeHTTP sampleEnv (NewMock ["abc"]) (post "other")).2.StatusCode = 400 ∧
        ∃ reason, (ServeHTTP sampleEnv (NewMock ["abc"]) (post "other")).2.Body =
          .error ⟨"BadRequest", reason⟩) :=
  unknown_token_unauthorized_iff_cluster_id sampleEnv (NewMock ["abc"]) (post "other")
    ⟨"", "xyz", "cluster-1"⟩ rfl rfl rfl (by decide)

/-- C6: a decoded request with a non-empty cluster ID whose token is not in
the accepted set is answered 401 with the error NotAuthorized / "The provided
token is not recognized.", the state is the same, and the answer does not
depend on the hash function (it is the same under any other one). -/
theorem unknown_token_unauthorized (env : Env) (s : mock) (req : Request)
    (r : clusterRegistration)
    (hm : req.Method = "POST") (hc : req.ContentType = "application/json")
    (hd : env.Decode req.Body = .ok r)
    (hid : r.ClusterID ≠ "") (ht : r.AuthorizationToken ∉ s.Tokens) :
    ServeHTTP env s req =
      (s, Write 401 (.error
        { Name := "NotAuthorized", Reason := "The provided token is not recognized." })) ∧
    ∀ hash : String → Except String String,
      ServeHTTP { Hash := hash, Decode := env.Decode } s req = ServeHTTP env s req := by
  have key : ∀ e : Env, e.Decode = env.Decode → ServeHTTP e s req =
      (s, Write 401 (.error
        { Name := "NotAuthorized", Reason := "The provided token is not recognized." })) := by
    intro e he
    rw [ServeHTTP_decoded e s req r hm hc (by rw [he]; exact hd)]
    simp [hid, ht, StatusUnauthorized]
  refine ⟨key env rfl, fun hash => ?_⟩
  rw [key env rfl, key ⟨hash, env.Decode⟩ rfl]

theorem unknown_token_unauthorized_witness :
    ServeHTTP sampleEnv (NewMock ["abc"]) (post "other") =
      (NewMock ["abc"], Write 401 (.error
        { Name := "NotAuthorized", Reason := "The provided token is not recognized." })) ∧
    ∀ hash : String → Except String String,
      ServeHTTP { Hash := hash, Decode := sampleEnv.Decode } (NewMock ["abc"]) (post "other") =
        ServeHTTP sampleEnv (NewMock ["abc"]) (post "other") :=
  unknown_token_unauthorized sampleEnv (NewMock ["abc"]) (post "other")
    ⟨"", "xyz", "cluster-1"⟩ rfl rfl rfl (by decide) (by decide)

/-! ## Classification of the handler's outcomes -/

/-- Every call is a rejection (same state, an error document with status 400,
401, 405 or 500), a replay (same state, 200, the stored registration) or a
creation (201, the fresh registration stored under the absent key). -/
theorem ServeHTTP_outcome (env : Env) (s : mock) (req : Request) :
    ((ServeHTTP env s req).1 = s ∧
      ((ServeHTTP env s req).2.StatusCode = 400 ∨ (ServeHTTP env s req).2.StatusCode = 401 ∨
        (ServeHTTP env s req).2.StatusCode = 405 ∨ (ServeHTTP env s req).2.StatusCode = 500) ∧
      ∃ e, (ServeHTTP env s req).2.Body = .error e) ∨
    (∃ r a stored, req.Method = "POST" ∧ req.ContentType = "application/json" ∧
      env.Decode req.Body = .ok r ∧ r.ClusterID ≠ "" ∧ r.AuthorizationToken ∈ s.Tokens ∧
      env.Hash r.ClusterID = .ok a ∧
      lookup s.Responses ⟨r.AuthorizationToken, r.ClusterID⟩ = some stored ∧
      ServeHTTP env s req = (s, Write 200 (.registration stored))) ∨
    (∃ r a, req.Method = "POST" ∧ req.ContentType = "application/json" ∧
      env.Decode req.Body = .ok r ∧ r.ClusterID ≠ "" ∧ r.AuthorizationToken ∈ s.Tokens ∧
      env.Hash r.ClusterID = .ok a ∧
      lookup s.Responses ⟨r.AuthorizationToken, r.ClusterID⟩ = none ∧
      ServeHTTP env s req =
        ({ s with Responses := (store s.Responses ⟨r.AuthorizationToken, r.ClusterID⟩
              ⟨a, r.AuthorizationToken, r.ClusterID⟩) },
          Write 201 (.registration ⟨a, r.AuthorizationToken, r.ClusterID⟩))) := by
  by_cases hm : req.Method = "POST"
  · by_cases hc : req.ContentType = "application/json"
    · cases hd : env.Decode req.Body with
      | error err =>
        left
        simp [ServeHTTP, hm, hc, hd, Write, StatusBadRequest]
      | ok r =>
        by_cases hid : r.ClusterID = ""
        · left
          rw [ServeHTTP_decoded env s req r hm hc hd]
          simp [hid, Write, StatusBadRequest]
        · by_cases ht : r.AuthorizationToken ∈ s.Tokens
          · cases hh : env.Hash r.ClusterID with
            | error err =>
              left
              rw [ServeHTTP_decoded env s req r hm hc hd]
              simp [hid, ht, hh, Write, StatusInternalServerError]
            | ok a =>
              cases hl : lookup s.Responses ⟨r.AuthorizationToken, r.ClusterID⟩ with
              | some stored =>
                right; left
                exact ⟨r, a, stored, hm, hc, rfl, hid, ht, hh, hl,
                  ServeHTTP_replay env s req r stored a hm hc hd hid ht hh hl⟩
              | none =>
                right; right
                exact ⟨r, a, hm, hc, rfl, hid, ht, hh, hl,
                  ServeHTTP_created env s req r a hm hc hd hid ht hh hl⟩
          · left
            rw [ServeHTTP_decoded env s req r hm hc hd]
            simp [hid, ht, Write, StatusUnauthorized]
    · left
      simp [ServeHTTP, hm, hc, Write, StatusBadRequest]
  · left
    simp [ServeHTTP, hm, Write, StatusMethodNotAllowed]

/-- One call keeps every entry the map already has. -/
theorem ServeHTTP_keeps_entries (env : Env) (s : mock) (req : Request) (k : Key)
    (v : clusterRegistration) (hk : lookup s.Responses k = some v) :
    lookup (ServeHTTP env s req).1.Responses k = some v := by
  rcases ServeHTTP_outcome env s req with ⟨h, _⟩ | ⟨r, a, stored, _, _, _, _, _, _, _, h⟩ |
    ⟨r, a, _, _, _, _, _, _, habs, h⟩
  · rw [h]; exact hk
  · rw [h]; exact hk
  · rw [h]
    have hne : k ≠ ⟨r.AuthorizationToken, r.ClusterID⟩ := by
      intro e
      rw [e, habs] at hk
      exact Option.noConfusion hk
    show lookup (store s.Responses _ _) k = some v
    rw [lookup_store_of_ne _ _ _ _ hne]
    exact hk

/-- A sequence of calls keeps the token set. -/
theorem serveAll_tokens (env : Env) (s : mock) (reqs : List Request) :
    (serveAll env s reqs).1.Tokens = s.Tokens := by
  induction reqs generalizing s with
  | nil => rfl
  | cons req reqs ih =>
    show (serveAll env (ServeHTTP env s req).1 reqs).1.Tokens = s.Tokens
    rw [ih]
    rcases ServeHTTP_outcome env s req with ⟨h, _⟩ | ⟨r, a, stored, _, _, _, _, _, _, _, h⟩ |
      ⟨r, a, _, _, _, _, _, _, habs, h⟩ <;> rw [h]

/-! ## The invariant holds in every reachable state -/

theorem Consistent_NewMock (env : Env) (tokenSet : List String) :
    Consistent env (NewMock tokenSet) := by
  intro k v h
  simp [NewMock, lookup] at h

theorem Consistent_ServeHTTP (env : Env) (s : mock) (req : Request)
    (hs : Consistent env s) : Consistent env (ServeHTTP env s req).1 := by
  rcases ServeHTTP_outcome env s req with ⟨h, _⟩ | ⟨r, a, stored, _, _, _, _, _, _, _, h⟩ |
    ⟨r, a, _, _, _, hid, ht, hh, habs, h⟩
  · rw [h]; exact hs
  · rw [h]; exact hs
  · rw [h]
    intro k v hk
    by_cases hkey : k = ⟨r.AuthorizationToken, r.ClusterID⟩
    · subst hkey
      have hv : lookup (store s.Responses ⟨r.AuthorizationToken, r.ClusterID⟩
          ⟨a, r.AuthorizationToken, r.ClusterID⟩) ⟨r.AuthorizationToken, r.ClusterID⟩ = some v := hk
      rw [lookup_store_self] at hv
      cases hv
      exact ⟨rfl, rfl, hh, hid, ht⟩
    · have hv : lookup (store s.Responses ⟨r.AuthorizationToken, r.ClusterID⟩
          ⟨a, r.AuthorizationToken, r.ClusterID⟩) k = some v := hk
      rw [lookup_store_of_ne _ _ _ _ hkey] at hv
      exact hs k v hv

theorem Consistent_serveAll (env : Env) (s : mock) (reqs : List Request)
    (hs : Consistent env s) : Consistent env (serveAll env s reqs).1 := by
  induction reqs generalizing s with
  | nil => exact hs
  | cons req reqs ih => exact ih _ (Consistent_ServeHTTP env s req hs)

/-- In a consistent state a response with status 200 or 201 to a request that
decodes to `r` carries a registration whose account ID is `Hash r.ClusterID`. -/
theorem success_account_is_hash (env : Env) (s : mock) (req : Request)
    (r : clusterRegistration) (hs : Consistent env s)
    (hd : env.Decode req.Body = .ok r)
    (hst : (ServeHTTP env s req).2.StatusCode = 200 ∨ (ServeHTTP env s req).2.StatusCode = 201) :
    ∃ g, (ServeHTTP env s req).2.Body = .registration g ∧
      env.Hash r.ClusterID = .ok g.AccountID := by
  rcases ServeHTTP_outcome env s req with ⟨_, hcode, _⟩ |
    ⟨r', a, stored, _, _, hd', _, _, _, hl, h⟩ | ⟨r', a, _, _, hd', _, _, hh, _, h⟩
  · omega
  · rw [hd] at hd'
    cases hd'
    rw [h]
    exact ⟨stored, rfl, (hs _ _ hl).2.2.1⟩
  · rw [hd] at hd'
    cases hd'
    rw [h]
    exact ⟨_, rfl, hh⟩

/-! ## Append-only map, hash failure, isolation by key, account IDs -/

/-- C7 (append-only): for every state and every finite sequence of requests
handled one after another, a key that has an entry before the sequence has the
same entry after it. -/
theorem registrations_append_only (env : Env) (s : mock) (reqs : List Request) (k : Key)
    (v : clusterRegistration) (hk : lookup s.Responses k = some v) :
    lookup (serveAll env s reqs).1.Responses k = some v := by
  induction reqs generalizing s with
  | nil => exact hk
  | cons req reqs ih => exact ih _ (ServeHTTP_keeps_entries env s req k v hk)

theorem registrations_append_only_witness :
    lookup registeredState.Responses ⟨"abc", "cluster-1"⟩ =
        some ⟨"stored-account", "abc", "cluster-1"⟩ ∧
    lookup (serveAll sampleEnv registeredState
        [post "cluster-1", post "cluster-2", post "other", post "", post "bad"]).1.Responses
        ⟨"abc", "cluster-1"⟩ = some ⟨"stored-account", "abc", "cluster-1"⟩ :=
  ⟨rfl, registrations_append_only sampleEnv registeredState
    [post "cluster-1", post "cluster-2", post "other", post "", post "bad"]
    ⟨"abc", "cluster-1"⟩ ⟨"stored-account", "abc", "cluster-1"⟩ rfl⟩

/-- C8 (hash failure): with a non-empty cluster ID and an accepted token, when
hashing the cluster ID fails the handler answers 500 with an error document
whose name is empty and whose reason is "hashing cluster ID failed", and the
state is the same; there is no hypothesis on the key being registered. -/
theorem hash_failure_internal_error (env : Env) (s : mock) (req : Request)
    (r : clusterRegistration) (err : String)
    (hm : req.Method = "POST") (hc : req.ContentType = "application/json")
    (hd : env.Decode req.Body = .ok r)
    (hid : r.ClusterID ≠ "") (ht : r.AuthorizationToken ∈ s.Tokens)
    (hh : env.Hash r.ClusterID = .error err) :
    ServeHTTP env s req =
      (s, Write 500 (.error { Name := "", Reason := "hashing cluster ID failed" })) := by
  rw [ServeHTTP_decoded env s req r hm hc hd]
  simp [hid, ht, hh, StatusInternalServerError]

theorem hash_failure_internal_error_witness :
    lookup badRegisteredState.Responses ⟨"abc", "bad"⟩ = some ⟨"stored-account", "abc", "bad"⟩ ∧
    ServeHTTP sampleEnv badRegisteredState (post "bad") =
      (badRegisteredState,
        Write 500 (.error { Name := "", Reason := "hashing cluster ID failed" })) ∧
    lookup (NewMock ["abc"]).Responses ⟨"abc", "bad"⟩ = none ∧
    ServeHTTP sampleEnv (NewMock ["abc"]) (post "bad") =
      (NewMock ["abc"],
        Write 500 (.error { Name := "", Reason := "hashing cluster ID failed" })) :=
  ⟨rfl, hash_failure_internal_error sampleEnv badRegisteredState (post "bad")
      ⟨"", "abc", "bad"⟩ "invalid" rfl rfl rfl (by decide) (by decide) rfl,
    rfl, hash_failure_internal_error sampleEnv (NewMock ["abc"]) (post "bad")
      ⟨"", "abc", "bad"⟩ "invalid" rfl rfl rfl (by decide) (by decide) rfl⟩

/-- C9 (isolation by key): two requests that pass validation, with different
keys both absent, handled one after the other are both answered 201 with their
own registration, and the resulting map holds both entries, each with its own
token, cluster ID and the hash of its cluster ID; when the two cluster IDs are
equal the two entries differ and their account IDs are equal. -/
theorem distinct_keys_both_created (env : Env) (s : mock) (req₁ req₂ : Request)
    (r₁ r₂ : clusterRegistration) (a₁ a₂ : String)
    (hm₁ : req₁.Method = "POST") (hc₁ : req₁.ContentType = "application/json")
    (hd₁ : env.Decode req₁.Body = .ok r₁)
    (hid₁ : r₁.ClusterID ≠ "") (ht₁ : r₁.AuthorizationToken ∈ s.Tokens)
    (hh₁ : env.Hash r₁.ClusterID = .ok a₁)
    (habs₁ : lookup s.Responses ⟨r₁.AuthorizationToken, r₁.ClusterID⟩ = none)
    (hm₂ : req₂.Method = "POST") (hc₂ : req₂.ContentType = "application/json")
    (hd₂ : env.Decode req₂.Body = .ok r₂)
    (hid₂ : r₂.ClusterID ≠ "") (ht₂ : r₂.AuthorizationToken ∈ s.Tokens)
    (hh₂ : env.Hash r₂.ClusterID = .ok a₂)
    (habs₂ : lookup s.Responses ⟨r₂.AuthorizationToken, r₂.ClusterID⟩ = none)
    (hne : r₁.AuthorizationToken ≠ r₂.AuthorizationToken ∨ r₁.ClusterID ≠ r₂.ClusterID) :
    (ServeHTTP env s req₁).2 =
        Write 201 (.registration ⟨a₁, r₁.AuthorizationToken, r₁.ClusterID⟩) ∧
    (ServeHTTP env (ServeHTTP env s req₁).1 req₂).2 =
        Write 201 (.registration ⟨a₂, r₂.AuthorizationToken, r₂.ClusterID⟩) ∧
    lookup (ServeHTTP env (ServeHTTP env s req₁).1 req₂).1.Responses
        ⟨r₁.AuthorizationToken, r₁.ClusterID⟩ =
      some ⟨a₁, r₁.AuthorizationToken, r₁.ClusterID⟩ ∧
    lookup (ServeHTTP env (ServeHTTP env s req₁).1 req₂).1.Responses
        ⟨r₂.AuthorizationToken, r₂.ClusterID⟩ =
      some ⟨a₂, r₂.AuthorizationToken, r₂.ClusterID⟩ ∧
    (r₁.ClusterID = r₂.ClusterID →
      a₁ = a₂ ∧
      (clusterRegistration.mk a₁ r₁.AuthorizationToken r₁.ClusterID) ≠
        clusterRegistration.mk a₂ r₂.AuthorizationToken r₂.ClusterID) := by
  have hkey : (Key.mk r₂.AuthorizationToken r₂.ClusterID) ≠
      Key.mk r₁.AuthorizationToken r₁.ClusterID := by
    intro e
    injection e with e₁ e₂
    rcases hne with h | h
    · exact h e₁.symm
    · exact h e₂.symm
  have h1 := ServeHTTP_created env s req₁ r₁ a₁ hm₁ hc₁ hd₁ hid₁ ht₁ hh₁ habs₁
  have habs₂' : lookup (ServeHTTP env s req₁).1.Responses
      ⟨r₂.AuthorizationToken, r₂.ClusterID⟩ = none := by
    rw [h1]
    show lookup (store s.Responses _ _) _ = none
    rw [lookup_store_of_ne _ _ _ _ hkey]
    exact habs₂
  have h2 := ServeHTTP_created env (ServeHTTP env s req₁).1 req₂ r₂ a₂ hm₂ hc₂ hd₂ hid₂
    (by rw [h1]; exact ht₂) hh₂ habs₂'
  refine ⟨by rw [h1], by rw [h2], ?_, ?_, ?_⟩
  · rw [h2]
    show lookup (store (ServeHTTP env s req₁).1.Responses _ _) _ = _
    rw [lookup_store_of_ne _ _ _ _ (Ne.symm hkey), h1]
    exact lookup_store_self _ _ _
  · rw [h2]
    exact lookup_store_self _ _ _
  · intro hc
    refine ⟨?_, ?_⟩
    · rw [hc, hh₂] at hh₁
      injection hh₁ with e
      exact e.symm
    · intro e
      injection e with _ e₂ _
      rcases hne with h | h
      · exact h e₂
      · exact h hc

theorem distinct_keys_both_created_witness :
    (ServeHTTP sampleEnv (NewMock ["abc", "xyz"]) (post "cluster-1")).2 =
        Write 201 (.registration ⟨"acct-cluster-1", "abc", "cluster-1"⟩) ∧
    (ServeHTTP sampleEnv (ServeHTTP sampleEnv (NewMock ["abc", "xyz"]) (post "cluster-1")).1
        (post "other")).2 =
        Write 201 (.registration ⟨"acct-cluster-1", "xyz", "cluster-1"⟩) ∧
    lookup (ServeHTTP sampleEnv
        (ServeHTTP sampleEnv (NewMock ["abc", "xyz"]) (post "cluster-1")).1
        (post "other")).1.Responses ⟨"abc", "cluster-1"⟩ =
      some ⟨"acct-cluster-1", "abc", "cluster-1"⟩ ∧
    lookup (ServeHTTP sampleEnv
        (ServeHTTP sampleEnv (NewMock ["abc", "xyz"]) (post "cluster-1")).1
        (post "other")).1.Responses ⟨"xyz", "cluster-1"⟩ =
      some ⟨"acct-cluster-1", "xyz", "cluster-1"⟩ ∧
    ("cluster-1" = "cluster-1" →
      "acct-cluster-1" = "acct-cluster-1" ∧
      (clusterRegistration.mk "acct-cluster-1" "abc" "cluster-1") ≠
        clusterRegistration.mk "acct-cluster-1" "xyz" "cluster-1") :=
  distinct_keys_both_created sampleEnv (NewMock ["abc", "xyz"]) (post "cluster-1") (post "other")
    ⟨"", "abc", "cluster-1"⟩ ⟨"", "xyz", "cluster-1"⟩ "acct-cluster-1" "acct-cluster-1"
    rfl rfl rfl (by decide) (by decide) rfl rfl
    rfl rfl rfl (by decide) (by decide) rfl rfl (Or.inl (by decide))

/-- C10 (account ID is a function of the cluster ID alone): take two
authorities, each reached from a freshly constructed one (with possibly
different token sets) by any sequence of requests, and two requests decoding
to the same cluster ID (possibly under different tokens), each answered with
200 or 201; then both responses carry a registration and the two account IDs
are equal. -/
theorem account_id_function_of_cluster_id (env : Env) (tokens₁ tokens₂ : List String)
    (reqs₁ reqs₂ : List Request) (req₁ req₂ : Request) (r₁ r₂ : clusterRegistration)
    (hd₁ : env.Decode req₁.Body = .ok r₁) (hd₂ : env.Decode req₂.Body = .ok r₂)
    (hc : r₁.ClusterID = r₂.ClusterID)
    (hst₁ : (ServeHTTP env (serveAll env (NewMock tokens₁) reqs₁).1 req₁).2.StatusCode = 200 ∨
      (ServeHTTP env (serveAll env (NewMock tokens₁) reqs₁).1 req₁).2.StatusCode = 201)
    (hst₂ : (ServeHTTP env (serveAll env (NewMock tokens₂) reqs₂).1 req₂).2.StatusCode = 200 ∨
      (ServeHTTP env (serveAll env (NewMock tokens₂) reqs₂).1 req₂).2.StatusCode = 201) :
    ∃ g₁ g₂ : clusterRegistration,
      (ServeHTTP env (serveAll env (NewMock tokens₁) reqs₁).1 req₁).2.Body = .registration g₁ ∧
      (ServeHTTP env (serveAll env (NewMock tokens₂) reqs₂).1 req₂).2.Body = .registration g₂ ∧
      g₁.AccountID = g₂.AccountID := by
  obtain ⟨g₁, hb₁, hg₁⟩ := success_account_is_hash env _ req₁ r₁
    (Consistent_serveAll env _ reqs₁ (Consistent_NewMock env tokens₁)) hd₁ hst₁
  obtain ⟨g₂, hb₂, hg₂⟩ := success_account_is_hash env _ req₂ r₂
    (Consistent_serveAll env _ reqs₂ (Consistent_NewMock env tokens₂)) hd₂ hst₂
  refine ⟨g₁, g₂, hb₁, hb₂, ?_⟩
  rw [hc, hg₂] at hg₁
  injection hg₁ with e
  exact e.symm

theorem account_id_function_of_cluster_id_witness :
    ∃ g₁ g₂ : clusterRegistration,
      (ServeHTTP sampleEnv (serveAll sampleEnv (NewMock ["abc"])
        [post "cluster-1", post "cluster-2"]).1 (post "cluster-1")).2.Body = .registration g₁ ∧
      (ServeHTTP sampleEnv (serveAll sampleEnv (NewMock ["xyz"])
        [post "cluster-1"]).1 (post "other")).2.Body = .registration g₂ ∧
      g₁.AccountID = g₂.AccountID :=
  account_id_function_of_cluster_id sampleEnv ["abc"] ["xyz"]
    [post "cluster-1", post "cluster-2"] [post "cluster-1"] (post "cluster-1") (post "other")
    ⟨"", "abc", "cluster-1"⟩ ⟨"", "xyz", "cluster-1"⟩ rfl rfl rfl
    (Or.inl (by decide)) (Or.inr (by decide))

/-! ## Frame and transport-level checks -/

/-- Writing under a key the map does not have adds one entry at the end. -/
theorem store_of_absent (m : Registrations) (k : Key) (v : clusterRegistration)
    (habs : lookup m k = none) : store m k v = m ++ [(k, v)] := by
  induction m with
  | nil => rfl
  | cons e m ih =>
    obtain ⟨k₀, v₀⟩ := e
    by_cases h : k₀ = k
    · simp [lookup, h] at habs
    · simp only [lookup, h, if_false] at habs
      simp [store, h, ih habs]

/-- C12 (frame): a call never changes the token set; when the status is not
201 the whole state is the same; when the status is 201 the request decodes to
a key that was absent and the map is the old map with one entry added under
that key (all other keys read as before); the status is one of 200, 201, 400,
401, 405, 500; and handling the same request again leaves the state reached by
the first call as it is. -/
theorem ServeHTTP_frame (env : Env) (s : mock) (req : Request) :
    (ServeHTTP env s req).1.Tokens = s.Tokens ∧
    ((ServeHTTP env s req).2.StatusCode ≠ 201 → (ServeHTTP env s req).1 = s) ∧
    ((ServeHTTP env s req).2.StatusCode = 201 →
      ∃ (r : clusterRegistration) (a : String),
        env.Decode req.Body = .ok r ∧
        lookup s.Responses ⟨r.AuthorizationToken, r.ClusterID⟩ = none ∧
        (ServeHTTP env s req).1.Responses =
          s.Responses ++ [(⟨r.AuthorizationToken, r.ClusterID⟩,
            ⟨a, r.AuthorizationToken, r.ClusterID⟩)] ∧
        lookup (ServeHTTP env s req).1.Responses ⟨r.AuthorizationToken, r.ClusterID⟩ =
          some ⟨a, r.AuthorizationToken, r.ClusterID⟩ ∧
        ∀ k : Key, k ≠ ⟨r.AuthorizationToken, r.ClusterID⟩ →
          lookup (ServeHTTP env s req).1.Responses k = lookup s.Responses k) ∧
    ((ServeHTTP env s req).2.StatusCode = 200 ∨ (ServeHTTP env s req).2.StatusCode = 201 ∨
      (ServeHTTP env s req).2.StatusCode = 400 ∨ (ServeHTTP env s req).2.StatusCode = 401 ∨
      (ServeHTTP env s req).2.StatusCode = 405 ∨ (ServeHTTP env s req).2.StatusCode = 500) ∧
    (ServeHTTP env (ServeHTTP env s req).1 req).1 = (ServeHTTP env s req).1 := by
  rcases ServeHTTP_outcome env s req with ⟨h, hcode, _⟩ |
    ⟨r, a, stored, _, _, _, _, _, _, _, h⟩ | ⟨r, a, hm, hc, hd, hid, ht, hh, habs, h⟩
  · refine ⟨by rw [h], fun _ => h, fun h201 => ?_, ?_, ?_⟩
    · omega
    · omega
    · rw [h]; exact h
  · refine ⟨by rw [h], fun _ => by rw [h], fun h201 => ?_, ?_, ?_⟩
    · rw [h] at h201
      simp [Write] at h201
    · left; rw [h]; rfl
    · rw [h]
      show (ServeHTTP env s req).1 = s
      rw [h]
  · refine ⟨by rw [h], fun hne => ?_, fun _ => ?_, ?_, ?_⟩
    · rw [h] at hne
      simp [Write] at hne
    · refine ⟨r, a, hd, habs, ?_, ?_, ?_⟩
      · rw [h]
        exact store_of_absent _ _ _ habs
      · rw [h]
        exact lookup_store_self _ _ _
      · intro k hk
        rw [h]
        exact lookup_store_of_ne _ _ _ _ hk
    · right; left; rw [h]; rfl
    · have h2 := ServeHTTP_replay env (ServeHTTP env s req).1 req r
        ⟨a, r.AuthorizationToken, r.ClusterID⟩ a hm hc hd hid
        (by rw [h]; exact ht) hh (by rw [h]; exact lookup_store_self _ _ _)
      rw [h2]

/-- C13 (transport-level checks, first failure wins): a request whose method
is not POST is answered 405 MethodNotAllowed whatever its content type and
body; a POST request whose content type is not application/json is answered
400 InvalidContentType whatever its body; a POST application/json request
whose body fails to decode with message `err` is answered 400 InvalidBody with
the reason "Unable to parse body as JSON: " followed by `err`. In each case
the state is the same and the answer is the same under any token set, any map
and any hash function. -/
theorem transport_checks_first (env : Env) (s : mock) (req : Request) :
    (req.Method ≠ "POST" →
      ServeHTTP env s req =
        (s, Write 405 (.error
          { Name := "MethodNotAllowed",
            Reason := "Only requests of type 'POST' are accepted." }))) ∧
    (req.Method = "POST" → req.ContentType ≠ "application/json" →
      ServeHTTP env s req =
        (s, Write 400 (.error
          { Name := "InvalidContentType",
            Reason := "Only requests with Content-Type application/json are accepted." }))) ∧
    (∀ err : String, req.Method = "POST" → req.ContentType = "application/json" →
      env.Decode req.Body = .error err →
      ServeHTTP env s req =
        (s, Write 400 (.error
          { Name := "InvalidBody", Reason := "Unable to parse body as JSON: " ++ err }))) ∧
    ((req.Method ≠ "POST" ∨ req.ContentType ≠ "application/json" ∨
        ∃ err, env.Decode req.Body = .error err) →
      ∀ (s' : mock) (hash : String → Except String String),
        (ServeHTTP { Hash := hash, Decode := env.Decode } s' req).2 = (ServeHTTP env s req).2 ∧
        (ServeHTTP { Hash := hash, Decode := env.Decode } s' req).1 = s') := by
  refine ⟨fun hm => ?_, fun hm hc => ?_, fun err hm hc hd => ?_, fun hrej s' hash => ?_⟩
  · simp [ServeHTTP, hm, StatusMethodNotAllowed]
  · simp [ServeHTTP, hm, hc, StatusBadRequest]
  · simp [ServeHTTP, hm, hc, hd, StatusBadRequest]
  · by_cases hm : req.Method = "POST"
    · by_cases hc : req.ContentType = "application/json"
      · rcases hrej with h | h | ⟨err, hd⟩
        · exact absurd hm h
        · exact absurd hc h
        · simp [ServeHTTP, hm, hc, hd]
      · simp [ServeHTTP, hm, hc]
    · simp [ServeHTTP, hm]

theorem transport_checks_first_witness :
    ServeHTTP sampleEnv registeredState ⟨"GET", "application/json", "cluster-1"⟩ =
      (registeredState, Write 405 (.error
        { Name := "MethodNotAllowed",
          Reason := "Only requests of type 'POST' are accepted." })) ∧
    ServeHTTP sampleEnv registeredState ⟨"POST", "text/plain", "cluster-1"⟩ =
      (registeredState, Write 400 (.error
        { Name := "InvalidContentType",
          Reason := "Only requests with Content-Type application/json are accepted." })) ∧
    ServeHTTP sampleEnv registeredState (post "") =
      (registeredState, Write 400 (.error
        { Name := "InvalidBody", Reason := "Unable to parse body as JSON: " ++ "EOF" })) :=
  ⟨(transport_checks_first sampleEnv registeredState ⟨"GET", "application/json", "cluster-1"⟩).1
      (by decide),
    (transport_checks_first sampleEnv registeredState ⟨"POST", "text/plain", "cluster-1"⟩).2.1
      rfl (by decide),
    (transport_checks_first sampleEnv registeredState (post "")).2.2.1 "EOF" rfl rfl rfl⟩

/-! ## Acceptance, reachable states, caller-supplied account ID -/

/-- Every response has one of the six status codes. -/
theorem ServeHTTP_status_codes (env : Env) (s : mock) (req : Request) :
    (ServeHTTP env s req).2.StatusCode = 200 ∨ (ServeHTTP env s req).2.StatusCode = 201 ∨
      (ServeHTTP env s req).2.StatusCode = 400 ∨ (ServeHTTP env s req).2.StatusCode = 401 ∨
      (ServeHTTP env s req).2.StatusCode = 405 ∨ (ServeHTTP env s req).2.StatusCode = 500 := by
  rcases ServeHTTP_outcome env s req with ⟨_, hcode, _⟩ |
    ⟨r, a, stored, _, _, _, _, _, _, _, h⟩ | ⟨r, a, _, _, _, _, _, _, _, h⟩
  · omega
  · left; rw [h]; rfl
  · right; left; rw [h]; rfl

/-- C15 (accept-iff): every response has a status among 200, 201, 400, 401,
405, 500; and for a POST application/json request that decodes to `r`, the
response is a success (status 200 or 201 with a registration body) if and only
if the cluster ID is non-empty, the token is accepted and the hash succeeds;
a success has status 201 exactly when the key was absent before the call and
status 200 exactly when it was present. -/
theorem success_iff_valid (env : Env) (s : mock) (req : Request) :
    ((ServeHTTP env s req).2.StatusCode = 200 ∨ (ServeHTTP env s req).2.StatusCode = 201 ∨
      (ServeHTTP env s req).2.StatusCode = 400 ∨ (ServeHTTP env s req).2.StatusCode = 401 ∨
      (ServeHTTP env s req).2.StatusCode = 405 ∨ (ServeHTTP env s req).2.StatusCode = 500) ∧
    ∀ r : clusterRegistration, req.Method = "POST" → req.ContentType = "application/json" →
      env.Decode req.Body = .ok r →
      ((((ServeHTTP env s req).2.StatusCode = 200 ∨ (ServeHTTP env s req).2.StatusCode = 201) ∧
          ∃ g, (ServeHTTP env s req).2.Body = .registration g) ↔
        (r.ClusterID ≠ "" ∧ r.AuthorizationToken ∈ s.Tokens ∧
          ∃ a, env.Hash r.ClusterID = .ok a)) ∧
      ((((ServeHTTP env s req).2.StatusCode = 200 ∨ (ServeHTTP env s req).2.StatusCode = 201) ∧
          ∃ g, (ServeHTTP env s req).2.Body = .registration g) →
        ((ServeHTTP env s req).2.StatusCode = 201 ↔
          lookup s.Responses ⟨r.AuthorizationToken, r.ClusterID⟩ = none) ∧
        ((ServeHTTP env s req).2.StatusCode = 200 ↔
          ∃ stored, lookup s.Responses ⟨r.AuthorizationToken, r.ClusterID⟩ = some stored)) := by
  refine ⟨ServeHTTP_status_codes env s req, fun r hm hc hd => ?_⟩
  rw [ServeHTTP_decoded env s req r hm hc hd]
  by_cases hid : r.ClusterID = ""
  · simp [hid, Write, StatusBadRequest]
  · by_cases ht : r.AuthorizationToken ∈ s.Tokens
    · cases hh : env.Hash r.ClusterID with
      | error err => simp [hid, ht, hh, Write, StatusInternalServerError]
      | ok a =>
        cases hl : lookup s.Responses ⟨r.AuthorizationToken, r.ClusterID⟩ with
        | none => simp [hid, ht, hh, hl, Write, StatusCreated]
        | some stored => simp [hid, ht, hh, hl, Write, StatusOK]
    · simp [hid, ht, Write, StatusUnauthorized]

theorem success_iff_valid_witness :
    ((((ServeHTTP sampleEnv registeredState (post "cluster-2")).2.StatusCode = 200 ∨
          (ServeHTTP sampleEnv registeredState (post "cluster-2")).2.StatusCode = 201) ∧
          ∃ g, (ServeHTTP sampleEnv registeredState (post "cluster-2")).2.Body =
            .registration g) ↔
        ("cluster-2" ≠ "" ∧ "abc" ∈ registeredState.Tokens ∧
          ∃ a, sampleEnv.Hash "cluster-2" = .ok a)) ∧
      ((((ServeHTTP sampleEnv registeredState (post "cluster-2")).2.StatusCode = 200 ∨
          (ServeHTTP sampleEnv registeredState (post "cluster-2")).2.StatusCode = 201) ∧
          ∃ g, (ServeHTTP sampleEnv registeredState (post "cluster-2")).2.Body =
            .registration g) →
        ((ServeHTTP sampleEnv registeredState (post "cluster-2")).2.StatusCode = 201 ↔
          lookup registeredState.Responses ⟨"abc", "cluster-2"⟩ = none) ∧
        ((ServeHTTP sampleEnv registeredState (post "cluster-2")).2.StatusCode = 200 ↔
          ∃ stored, lookup registeredState.Responses ⟨"abc", "cluster-2"⟩ = some stored)) :=
  (success_iff_valid sampleEnv registeredState (post "cluster-2")).2
    ⟨"", "abc", "cluster-2"⟩ rfl rfl rfl

/-- C16 (reachable-state invariant): in every state reached from a freshly
constructed authority by a finite sequence of requests, an entry stored under
the key `(t, c)` has token `t`, cluster ID `c` and account ID `Hash c`, with
`c` non-empty, `t` accepted and the hash successful; so in such a state a
POST application/json request whose key is registered is answered 200 (not
500) with the stored entry, which carries the request token and cluster ID. -/
theorem reachable_entries_consistent (env : Env) (tokenSet : List String)
    (reqs : List Request) :
    (∀ (k : Key) (v : clusterRegistration),
      lookup (serveAll env (NewMock tokenSet) reqs).1.Responses k = some v →
        v.AuthorizationToken = k.Token ∧ v.ClusterID = k.Cluster ∧
        env.Hash k.Cluster = .ok v.AccountID ∧ k.Cluster ≠ "" ∧ k.Token ∈ tokenSet) ∧
    ∀ (req : Request) (r stored : clusterRegistration),
      req.Method = "POST" → req.ContentType = "application/json" →
      env.Decode req.Body = .ok r →
      lookup (serveAll env (NewMock tokenSet) reqs).1.Responses
        ⟨r.AuthorizationToken, r.ClusterID⟩ = some stored →
      ServeHTTP env (serveAll env (NewMock tokenSet) reqs).1 req =
        ((serveAll env (NewMock tokenSet) reqs).1, Write 200 (.registration stored)) ∧
      stored.AuthorizationToken = r.AuthorizationToken ∧
      stored.ClusterID = r.ClusterID ∧
      env.Hash r.ClusterID = .ok stored.AccountID ∧
      (ServeHTTP env (serveAll env (NewMock tokenSet) reqs).1 req).2.StatusCode ≠ 500 := by
  have hcons := Consistent_serveAll env (NewMock tokenSet) reqs (Consistent_NewMock env tokenSet)
  have htok : (serveAll env (NewMock tokenSet) reqs).1.Tokens = tokenSet :=
    serveAll_tokens env (NewMock tokenSet) reqs
  refine ⟨fun k v hk => ?_, fun req r stored hm hc hd hl => ?_⟩
  · have h := hcons k v hk
    rw [htok] at h
    exact h
  · obtain ⟨h1, h2, h3, h4, h5⟩ := hcons _ _ hl
    have hrep := ServeHTTP_replay env _ req r stored stored.AccountID hm hc hd h4 h5 h3 hl
    refine ⟨hrep, h1, h2, h3, ?_⟩
    rw [hrep]
    simp [Write]

theorem reachable_entries_consistent_witness :
    ServeHTTP sampleEnv (serveAll sampleEnv (NewMock ["abc"])
        [post "cluster-1", post "bad", post "cluster-2"]).1 (post "cluster-1") =
      ((serveAll sampleEnv (NewMock ["abc"])
        [post "cluster-1", post "bad", post "cluster-2"]).1,
        Write 200 (.registration ⟨"acct-cluster-1", "abc", "cluster-1"⟩)) ∧
    (clusterRegistration.mk "acct-cluster-1" "abc" "cluster-1").AuthorizationToken =
      (clusterRegistration.mk "" "abc" "cluster-1").AuthorizationToken ∧
    (clusterRegistration.mk "acct-cluster-1" "abc" "cluster-1").ClusterID =
      (clusterRegistration.mk "" "abc" "cluster-1").ClusterID ∧
    sampleEnv.Hash (clusterRegistration.mk "" "abc" "cluster-1").ClusterID =
      .ok (clusterRegistration.mk "acct-cluster-1" "abc" "cluster-1").AccountID ∧
    (ServeHTTP sampleEnv (serveAll sampleEnv (NewMock ["abc"])
        [post "cluster-1", post "bad", post "cluster-2"]).1 (post "cluster-1")).2.StatusCode
      ≠ 500 :=
  (reachable_entries_consistent sampleEnv ["abc"]
      [post "cluster-1", post "bad", post "cluster-2"]).2
    (post "cluster-1") ⟨"", "abc", "cluster-1"⟩ ⟨"acct-cluster-1", "abc", "cluster-1"⟩
    rfl rfl rfl rfl

/-- C17 (caller-supplied account ID is ignored): two POST application/json
requests that decode to the same token and cluster ID, whatever their account
ID fields, get the same status and body and lead to the same state; and when
the response is 201 the entry stored under the key has the hash of the cluster
ID as account ID. -/
theorem request_account_id_ignored (env : Env) (s : mock) (req₁ req₂ : Request)
    (r₁ r₂ : clusterRegistration)
    (hm₁ : req₁.Method = "POST") (hc₁ : req₁.ContentType = "application/json")
    (hd₁ : env.Decode req₁.Body = .ok r₁)
    (hm₂ : req₂.Method = "POST") (hc₂ : req₂.ContentType = "application/json")
    (hd₂ : env.Decode req₂.Body = .ok r₂)
    (htok : r₁.AuthorizationToken = r₂.AuthorizationToken)
    (hcl : r₁.ClusterID = r₂.ClusterID) :
    ServeHTTP env s req₁ = ServeHTTP env s req₂ ∧
    ((ServeHTTP env s req₁).2.StatusCode = 201 →
      ∃ g, lookup (ServeHTTP env s req₁).1.Responses ⟨r₁.AuthorizationToken, r₁.ClusterID⟩ =
          some g ∧
        (ServeHTTP env s req₁).2.Body = .registration g ∧
        env.Hash r₁.ClusterID = .ok g.AccountID) := by
  refine ⟨?_, fun h201 => ?_⟩
  · rw [ServeHTTP_decoded env s req₁ r₁ hm₁ hc₁ hd₁, ServeHTTP_decoded env s req₂ r₂ hm₂ hc₂ hd₂,
      htok, hcl]
  · rcases ServeHTTP_outcome env s req₁ with ⟨_, hcode, _⟩ |
      ⟨r, a, stored, _, _, _, _, _, _, _, h⟩ | ⟨r, a, _, _, hd, _, _, hh, _, h⟩
    · omega
    · rw [h] at h201
      simp [Write] at h201
    · rw [hd₁] at hd
      cases hd
      rw [h]
      exact ⟨⟨a, r₁.AuthorizationToken, r₁.ClusterID⟩, lookup_store_self _ _ _, rfl, hh⟩

theorem request_account_id_ignored_witness :
    forgingEnv.Decode (post "forged").Body = .ok ⟨"chosen-by-caller", "abc", "cluster-1"⟩ ∧
    forgingEnv.Decode (post "cluster-1").Body = .ok ⟨"", "abc", "cluster-1"⟩ ∧
    (ServeHTTP forgingEnv (NewMock ["abc"]) (post "forged")).2 =
      Write 201 (.registration ⟨"acct-cluster-1", "abc", "cluster-1"⟩) ∧
    ServeHTTP forgingEnv (NewMock ["abc"]) (post "forged") =
      ServeHTTP forgingEnv (NewMock ["abc"]) (post "cluster-1") ∧
    ((ServeHTTP forgingEnv (NewMock ["abc"]) (post "forged")).2.StatusCode = 201 →
      ∃ g, lookup (ServeHTTP forgingEnv (NewMock ["abc"]) (post "forged")).1.Responses
          ⟨"abc", "cluster-1"⟩ = some g ∧
        (ServeHTTP forgingEnv (NewMock ["abc"]) (post "forged")).2.Body = .registration g ∧
        forgingEnv.Hash "cluster-1" = .ok g.AccountID) :=
  ⟨rfl, rfl, by decide,
    request_account_id_ignored forgingEnv (NewMock ["abc"]) (post "forged") (post "cluster-1")
      ⟨"chosen-by-caller", "abc", "cluster-1"⟩ ⟨"", "abc", "cluster-1"⟩
      rfl rfl rfl rfl rfl rfl rfl rfl⟩

/-! ## Exactly-once registration over a sequence of requests -/

theorem serveAll_cons (env : Env) (s : mock) (req : Request) (reqs : List Request) :
    serveAll env s (req :: reqs) =
      ((serveAll env (ServeHTTP env s req).1 reqs).1,
        (ServeHTTP env s req).2 :: (serveAll env (ServeHTTP env s req).1 reqs).2) := rfl

/-- Once a key is registered, every later successful response to a request
with that key is the replay of the stored entry. -/
theorem later_success_is_replay (env : Env) (s : mock) (reqs : List Request) (j : Nat)
    (q : Request) (p : Response) (r v : clusterRegistration)
    (hl : lookup s.Responses ⟨r.AuthorizationToken, r.ClusterID⟩ = some v)
    (hq : reqs[j]? = some q) (hp : (serveAll env s reqs).2[j]? = some p)
    (hd : env.Decode q.Body = .ok r)
    (hst : p.StatusCode = 200 ∨ p.StatusCode = 201) :
    p = Write 200 (.registration v) := by
  induction reqs generalizing s j with
  | nil => simp at hq
  | cons req reqs ih =>
    rw [serveAll_cons] at hp
    cases j with
    | zero =>
      simp only [List.getElem?_cons_zero, Option.some.injEq] at hq hp
      subst hq
      subst hp
      rcases ServeHTTP_outcome env s req with ⟨_, hcode, _⟩ |
        ⟨r', a, stored, _, _, hd', _, _, _, hl', h⟩ | ⟨r', a, _, _, hd', _, _, _, habs, h⟩
      · omega
      · rw [hd] at hd'
        cases hd'
        rw [hl] at hl'
        cases hl'
        rw [h]
      · rw [hd] at hd'
        cases hd'
        rw [hl] at habs
        exact Option.noConfusion habs
    | succ j =>
      simp only [List.getElem?_cons_succ] at hq hp
      exact ih _ j (ServeHTTP_keeps_entries env s req _ v hl) hq hp

/-- In a run from any state, after a 201 response no later response for the
same key is a 201, and a later successful one is 200 with the same body. -/
theorem created_at_most_once (env : Env) (s : mock) (reqs : List Request) (i j : Nat)
    (q₁ q₂ : Request) (p₁ p₂ : Response) (r₁ r₂ : clusterRegistration)
    (hij : i < j)
    (hq₁ : reqs[i]? = some q₁) (hq₂ : reqs[j]? = some q₂)
    (hp₁ : (serveAll env s reqs).2[i]? = some p₁) (hp₂ : (serveAll env s reqs).2[j]? = some p₂)
    (hd₁ : env.Decode q₁.Body = .ok r₁) (hd₂ : env.Decode q₂.Body = .ok r₂)
    (htok : r₁.AuthorizationToken = r₂.AuthorizationToken) (hcl : r₁.ClusterID = r₂.ClusterID)
    (h201 : p₁.StatusCode = 201) :
    p₂.StatusCode ≠ 201 ∧
    ((p₂.StatusCode = 200 ∨ p₂.StatusCode = 201) →
      p₂.StatusCode = 200 ∧ p₂.Body = p₁.Body) := by
  induction reqs generalizing s i j with
  | nil => simp at hq₁
  | cons req reqs ih =>
    rw [serveAll_cons] at hp₁ hp₂
    cases j with
    | zero => omega
    | succ j =>
      simp only [List.getElem?_cons_succ] at hq₂ hp₂
      cases i with
      | zero =>
        simp only [List.getElem?_cons_zero, Option.some.injEq] at hq₁ hp₁
        subst hq₁
        subst hp₁
        rcases ServeHTTP_outcome env s req with ⟨_, hcode, _⟩ |
          ⟨r', a, stored, _, _, _, _, _, _, _, h⟩ | ⟨r', a, _, _, hd', _, _, _, _, h⟩
        · omega
        · rw [h] at h201
          simp [Write] at h201
        · rw [hd₁] at hd'
          cases hd'
          have hl : lookup (ServeHTTP env s req).1.Responses
              ⟨r₂.AuthorizationToken, r₂.ClusterID⟩ =
              some ⟨a, r₁.AuthorizationToken, r₁.ClusterID⟩ := by
            rw [h, ← htok, ← hcl]
            exact lookup_store_self _ _ _
          have key := later_success_is_replay env _ reqs j q₂ p₂ r₂ _ hl hq₂ hp₂ hd₂
          refine ⟨fun hc => ?_, fun hst => ?_⟩
          · have e := key (Or.inr hc)
            rw [e] at hc
            simp [Write] at hc
          · rw [key hst, h]
            exact ⟨rfl, rfl⟩
      | succ i =>
        simp only [List.getElem?_cons_succ] at hq₁ hp₁
        exact ih _ i j (by omega) hq₁ hq₂ hp₁ hp₂

/-- A key the map does not have is not among its keys. -/
theorem not_mem_keys_of_lookup_none (m : Registrations) (k : Key)
    (habs : lookup m k = none) : k ∉ keys m := by
  induction m with
  | nil => simp [keys]
  | cons e m ih =>
    obtain ⟨k₀, v₀⟩ := e
    by_cases h : k₀ = k
    · simp [lookup, h] at habs
    · simp only [lookup, h, if_false] at habs
      have := ih habs
      simp only [keys, List.map_cons, List.mem_cons, not_or] at this ⊢
      exact ⟨fun e => h e.symm, this⟩

/-- The map grows by one entry per 201 response, and its keys stay distinct. -/
theorem serveAll_entries_count (env : Env) (s : mock) (reqs : List Request) :
    (serveAll env s reqs).1.Responses.length =
        s.Responses.length + createdCount (serveAll env s reqs).2 ∧
    ((keys s.Responses).Nodup → (keys (serveAll env s reqs).1.Responses).Nodup) := by
  induction reqs generalizing s with
  | nil => exact ⟨rfl, fun h => h⟩
  | cons req reqs ih =>
    rw [serveAll_cons]
    obtain ⟨ihlen, ihnd⟩ := ih (ServeHTTP env s req).1
    rcases ServeHTTP_outcome env s req with ⟨h, hcode, _⟩ |
      ⟨r, a, stored, _, _, _, _, _, _, _, h⟩ | ⟨r, a, _, _, _, _, _, _, habs, h⟩
    · have hne : ¬ (ServeHTTP env s req).2.StatusCode = StatusCreated := by
        simp only [StatusCreated]; omega
      refine ⟨?_, fun hnd => ihnd (by rw [h]; exact hnd)⟩
      show (serveAll env (ServeHTTP env s req).1 reqs).1.Responses.length = _
      rw [ihlen, h]
      simp [createdCount, hne]
    · have hne : ¬ (ServeHTTP env s req).2.StatusCode = StatusCreated := by
        rw [h]; simp [Write, StatusCreated]
      refine ⟨?_, fun hnd => ihnd (by rw [h]; exact hnd)⟩
      show (serveAll env (ServeHTTP env s req).1 reqs).1.Responses.length = _
      rw [ihlen]
      simp only [createdCount, List.countP_cons_of_neg, hne, decide_False, Bool.false_eq_true,
        not_false_eq_true]
      rw [h]
    · have hpos : (ServeHTTP env s req).2.StatusCode = StatusCreated := by
        rw [h]; rfl
      have hresp : (ServeHTTP env s req).1.Responses =
          s.Responses ++ [(⟨r.AuthorizationToken, r.ClusterID⟩,
            ⟨a, r.AuthorizationToken, r.ClusterID⟩)] := by
        rw [h]; exact store_of_absent _ _ _ habs
      refine ⟨?_, fun hnd => ihnd ?_⟩
      · show (serveAll env (ServeHTTP env s req).1 reqs).1.Responses.length = _
        rw [ihlen, hresp]
        simp only [createdCount, hpos, decide_True, List.countP_cons_of_pos, List.length_append,
          List.length_singleton]
        omega
      · rw [hresp]
        have hnot := not_mem_keys_of_lookup_none _ _ habs
        simp only [keys, List.map_append, List.map_cons, List.map_nil] at hnd hnot ⊢
        rw [List.nodup_append]
        refine ⟨hnd, List.nodup_singleton _, ?_⟩
        intro x hx hx'
        simp only [List.mem_singleton] at hx'
        subst hx'
        exact hnot hx

/-- C11 (exactly-once registration, sequential form): in a run of any finite
sequence of requests from a freshly constructed authority, if a response has
status 201 then no later response to a request with the same key has status
201, and every later successful one has status 200 and the same body; the map
at the end has as many entries as there were 201 responses, under pairwise
distinct keys. -/
theorem registration_exactly_once (env : Env) (tokenSet : List String) (reqs : List Request) :
    (∀ (i j : Nat) (q₁ q₂ : Request) (p₁ p₂ : Response) (r₁ r₂ : clusterRegistration),
      i < j → reqs[i]? = some q₁ → reqs[j]? = some q₂ →
      (serveAll env (NewMock tokenSet) reqs).2[i]? = some p₁ →
      (serveAll env (NewMock tokenSet) reqs).2[j]? = some p₂ →
      env.Decode q₁.Body = .ok r₁ → env.Decode q₂.Body = .ok r₂ →
      r₁.AuthorizationToken = r₂.AuthorizationToken → r₁.ClusterID = r₂.ClusterID →
      p₁.StatusCode = 201 →
      p₂.StatusCode ≠ 201 ∧
      ((p₂.StatusCode = 200 ∨ p₂.StatusCode = 201) →
        p₂.StatusCode = 200 ∧ p₂.Body = p₁.Body)) ∧
    (serveAll env (NewMock tokenSet) reqs).1.Responses.length =
      createdCount (serveAll env (NewMock tokenSet) reqs).2 ∧
    (keys (serveAll env (NewMock tokenSet) reqs).1.Responses).Nodup := by
  refine ⟨fun i j q₁ q₂ p₁ p₂ r₁ r₂ hij hq₁ hq₂ hp₁ hp₂ hd₁ hd₂ htok hcl h201 =>
      created_at_most_once env _ reqs i j q₁ q₂ p₁ p₂ r₁ r₂ hij hq₁ hq₂ hp₁ hp₂ hd₁ hd₂
        htok hcl h201, ?_, ?_⟩
  · have h := (serveAll_entries_count env (NewMock tokenSet) reqs).1
    simpa [NewMock] using h
  · exact (serveAll_entries_count env (NewMock tokenSet) reqs).2 (by simp [NewMock, keys])

theorem registration_exactly_once_witness :
    (serveAll sampleEnv (NewMock ["abc"])
        [post "cluster-1", post "cluster-2", post "cluster-1"]).2 =
      [Write 201 (.registration ⟨"acct-cluster-1", "abc", "cluster-1"⟩),
        Write 201 (.registration ⟨"acct-cluster-2", "abc", "cluster-2"⟩),
        Write 200 (.registration ⟨"acct-cluster-1", "abc", "cluster-1"⟩)] ∧
    (Write 200 (.registration ⟨"acct-cluster-1", "abc", "cluster-1"⟩)).StatusCode ≠ 201 ∧
    (((Write 200 (.registration ⟨"acct-cluster-1", "abc", "cluster-1"⟩)).StatusCode = 200 ∨
        (Write 200 (.registration ⟨"acct-cluster-1", "abc", "cluster-1"⟩)).StatusCode = 201) →
      (Write 200 (.registration ⟨"acct-cluster-1", "abc", "cluster-1"⟩)).StatusCode = 200 ∧
      (Write 200 (.registration ⟨"acct-cluster-1", "abc", "cluster-1"⟩)).Body =
        (Write 201 (.registration ⟨"acct-cluster-1", "abc", "cluster-1"⟩)).Body) :=
  ⟨by decide, (registration_exactly_once sampleEnv ["abc"]
      [post "cluster-1", post "cluster-2", post "cluster-1"]).1
    0 2 (post "cluster-1") (post "cluster-1")
    (Write 201 (.registration ⟨"acct-cluster-1", "abc", "cluster-1"⟩))
    (Write 200 (.registration ⟨"acct-cluster-1", "abc", "cluster-1"⟩))
    ⟨"", "abc", "cluster-1"⟩ ⟨"", "abc", "cluster-1"⟩
    (by decide) rfl rfl (by decide) (by decide) rfl rfl rfl rfl rfl⟩

end Tollbooth
